import Mathlib

/-!
Shallow embedding of the web_crawler repository (src/web_scraper.py and
src/search_and_scrape.py).  External libraries (requests, BeautifulSoup,
urllib, diskcache) are modelled as explicit inputs: network responses,
parsed documents and URL resolution are parameters of the embedded
functions, while the control flow, string processing, capping,
deduplication, retry, rate-limit and cache logic of the repository's own
code is translated line by line.
-/

/-- First-match lookup in an association list, as Python dict reads are
modelled here (writers below only ever associate one value per key, so
first-match and last-write coincide). -/
def alist_lookup {α : Type} (l : List (String × α)) (k : String) : Option α :=
  match l with
  | [] => none
  | (k', v) :: rest => if k' = k then some v else alist_lookup rest k

/-- Python `s.strip()`: remove leading and trailing whitespace
(character-level, so that concrete instances evaluate). -/
def trim_chars (l : List Char) : List Char :=
  ((l.dropWhile Char.isWhitespace).reverse.dropWhile Char.isWhitespace).reverse

/-- Split a character list at every character satisfying `p`, keeping the
(possibly empty) segments between the split points. -/
def split_when (p : Char → Bool) : List Char → List (List Char)
  | [] => [[]]
  | c :: cs =>
    if p c then [] :: split_when p cs
    else
      match split_when p cs with
      | [] => [[c]]
      | seg :: segs => (c :: seg) :: segs

/-- Python `s.split()` with no separator: split on whitespace, dropping
empty tokens (equivalently, split on whitespace runs).  Used for word
counts. -/
def py_words (s : String) : List String :=
  (((split_when fun c => c.isWhitespace) s.data).filter fun w => w ≠ []).map
    fun w => String.mk w

/-- Python `text.split(". ")`: split at each non-overlapping occurrence of
the two-character separator, scanning left to right. -/
def split_dot_space : List Char → List (List Char)
  | [] => [[]]
  | '.' :: ' ' :: rest => [] :: split_dot_space rest
  | c :: cs =>
    match split_dot_space cs with
    | [] => [[c]]
    | seg :: segs => (c :: seg) :: segs

/-- Does `pat` occur contiguously in the second list?  Models Python's
`pat in s` substring test. -/
def list_contains_sub (pat : List Char) : List Char → Bool
  | [] => pat.isEmpty
  | c :: cs => pat.isPrefixOf (c :: cs) || list_contains_sub pat cs

/-- Python's `pat in s` substring test on strings. -/
def str_contains (s pat : String) : Bool :=
  list_contains_sub pat.data s.data

/-- The record produced for one scraped page.  Python returns dicts; the
denied/failed dicts of `scrape_page` omit `description`/`keywords`, and all
downstream reads of those keys use `.get` with the defaults
"No Description"/"No Keywords", so the sentinel records below carry those
defaults directly. -/
structure ScrapeRecord where
  title : String
  description : String
  keywords : String
  content : String
  links : List String
deriving DecidableEq, Repr

/-- Abstraction of a parsed BeautifulSoup document after the
`script`/`style`/`nav`/`footer`/`header` elements are decomposed
(web_scraper.py lines 112-114): the document title and the two meta tags
(`none` when the element is absent), the `get_text()` of each `<p>` inside
the chosen main container (lines 117-124), and the `href` value of each
`<a href=...>` in document order (line 127). -/
structure Soup where
  titleTag : Option String
  metaDescription : Option String
  metaKeywords : Option String
  paragraphs : List String
  anchorHrefs : List String
deriving DecidableEq, Repr

/-- Model of `WebScraper.summarize_text` (web_scraper.py lines 138-140): split into
sentences on ". "; when there are more than 3, join the first 3 with ". "
and append "...", else return the text unchanged. -/
def summarize_text (text : String) : String :=
  let sentences := split_dot_space text.data
  if sentences.length > 3 then
    String.mk (List.intercalate ['.', ' '] (sentences.take 3) ++ ['.', '.', '.'])
  else text

/-- The paragraph text `extract_content` works on: the stripped `<p>`
texts joined with single spaces and truncated to 2400 characters
(web_scraper.py line 125). -/
def joined_paragraphs (soup : Soup) : String :=
  String.mk
    ((List.intercalate [' '] (soup.paragraphs.map fun p => trim_chars p.data)).take 2400)

/-- Model of `WebScraper.extract_content` (web_scraper.py lines 111-136) over an
already-parsed document.  `resolve` stands for `urllib.parse.urljoin`,
taking the base URL and an href.  Python's `list(set(links))` is modelled
by `List.dedup` (the spec declares link order not significant). -/
def extract_content (summarize_content : Bool)
    (resolve : String → String → String) (soup : Soup) (url : String) :
    ScrapeRecord :=
  let content0 : String := joined_paragraphs soup
  let links := (soup.anchorHrefs.map fun href => resolve url href).take 10
  let content :=
    if summarize_content && decide (100 < (py_words content0).length) then
      summarize_text content0
    else content0
  { title := soup.titleTag.getD "No Title"
    description := soup.metaDescription.getD "No Description"
    keywords := soup.metaKeywords.getD "No Keywords"
    content := if content = "" then "No main content found." else content
    links := links.dedup }

/-- Model of `WebScraper.can_fetch` (web_scraper.py lines 42-52).  The retrieval and
evaluation of robots.txt (`rp.read(); rp.can_fetch(...)`) is modelled as an
oracle: `Except.ok verdict` when it completes, `Except.error e` when any
exception is raised; the `except` branch returns `True` (fail open). -/
def can_fetch (robots : Except String Bool) : Bool :=
  match robots with
  | Except.ok allowed => allowed
  | Except.error _ => true

/-- The record `scrape_page` returns when robots.txt denies access
(web_scraper.py line 144). -/
def denied_record : ScrapeRecord :=
  { title := "No Title", description := "No Description", keywords := "No Keywords"
    content := "Access denied by robots.txt", links := [] }

/-- The record `scrape_page` returns when the fetch yields nothing truthy
(web_scraper.py line 149). -/
def failed_record (url : String) : ScrapeRecord :=
  { title := "No Title", description := "No Description", keywords := "No Keywords"
    content := "Failed to fetch " ++ url, links := [] }

/-- Observable steps of `scrape_page`, recorded so that "without attempting
a fetch" and "proceeds to attempt a fetch" are statable. -/
inductive ScrapeAction where
  | robotsCheck
  | fetchAttempt
deriving DecidableEq, Repr

/-- Model of `WebScraper.scrape_page` (web_scraper.py lines 142-151) with the fetch
result supplied as an oracle (`none` models `fetch_page` returning `None`).
Python's `if not html` is falsy both for `None` and for the empty string,
so both cases take the failed-fetch branch.  The second component lists the
actions taken: the robots check always runs, and a fetch is attempted
exactly when the robots check passes. -/
def scrape_page (summarize_content : Bool)
    (resolve : String → String → String) (parse : String → Soup)
    (robots : Except String Bool) (html : Option String) (url : String) :
    ScrapeRecord × List ScrapeAction :=
  if ¬ can_fetch robots then
    (denied_record, [ScrapeAction.robotsCheck])
  else
    match html with
    | none => (failed_record url, [ScrapeAction.robotsCheck, ScrapeAction.fetchAttempt])
    | some h =>
      if h = "" then
        (failed_record url, [ScrapeAction.robotsCheck, ScrapeAction.fetchAttempt])
      else
        (extract_content summarize_content resolve (parse h) url,
         [ScrapeAction.robotsCheck, ScrapeAction.fetchAttempt])

/-- Observable events of `fetch_page`: the rate-limit wait before an
attempt, the HTTP GET itself, and the backoff sleep after a failure. -/
inductive FetchEvent where
  | rateLimit (url : String)
  | httpGet (url : String)
  | backoffSleep (seconds : Nat)
deriving DecidableEq, Repr

/-- The retry loop of `WebScraper.fetch_page` (web_scraper.py lines 64-78).
`responses attempt` is the outcome of the HTTP GET on that attempt
(`none` = `requests.RequestException`); `remaining` counts loop iterations
left and `attempt` is the current loop index.  Returns the event trace and
the fetched text. -/
def fetch_page_loop (url : String) (responses : Nat → Option String) :
    Nat → Nat → List FetchEvent × Option String
  | 0, _ => ([], none)
  | remaining + 1, attempt =>
    match responses attempt with
    | some text =>
      ([FetchEvent.rateLimit url, FetchEvent.httpGet url], some text)
    | none =>
      let rest := fetch_page_loop url responses remaining (attempt + 1)
      (FetchEvent.rateLimit url :: FetchEvent.httpGet url ::
        FetchEvent.backoffSleep (2 ^ attempt) :: rest.1, rest.2)

/-- Model of `WebScraper.fetch_page` (web_scraper.py lines 63-78): up to
`max_retries` attempts starting at attempt 0; on exhaustion the Python code
logs an error and returns `None` (no exception escapes: the only failures,
`requests.RequestException`, are caught in the loop). -/
def fetch_page (url : String) (responses : Nat → Option String)
    (max_retries : Nat) : List FetchEvent × Option String :=
  fetch_page_loop url responses max_retries 0

/-- Model of `WebScraper.last_request_time`: association of each domain with the
time of the last request dispatched to it.  Time is modelled in integer
clock ticks. -/
abbrev RateState := List (String × ℤ)

/-- Model of `WebScraper.respect_rate_limit` (web_scraper.py lines 54-61) under an
idealized clock: `now` is the value of `time.time()` on entry,
`time.sleep d` advances the clock by exactly `d`, and the recorded
timestamp is the clock value after the (possible) sleep.  Returns the
updated state and the dispatch time. -/
def respect_rate_limit (rate_limit : ℤ) (st : RateState) (domain : String)
    (now : ℤ) : RateState × ℤ :=
  let dispatch :=
    match alist_lookup st domain with
    | none => now
    | some last => if now - last < rate_limit then last + rate_limit else now
  ((domain, dispatch) :: st, dispatch)

/-- A search hit as returned by the external search collaborator
(search.py); only the fields read by `search_and_scrape`. -/
structure SearchResult where
  title : String
  snippet : String
  link : String
deriving DecidableEq, Repr

/-- One combined record of the pipeline output
(search_and_scrape.py lines 98-108). -/
structure CombinedRecord where
  title : String
  snippet : String
  link : String
  scraped_content : String
  word_count : Nat
  source : String
  scraped_links : List String
deriving DecidableEq, Repr

/-- The query cache (`diskcache.Cache`), modelled as a key-value map:
`cache_put` is `self.cache[query] = results`, `cache_get` is the
`query in self.cache` test followed by `self.cache[query]`. -/
abbrev ResultCache := List (String × List CombinedRecord)

/-- Store a result list under a query (search_and_scrape.py line 110). -/
def cache_put (c : ResultCache) (q : String) (r : List CombinedRecord) :
    ResultCache :=
  (q, r) :: c

/-- Look a query up in the cache (search_and_scrape.py lines 41-45);
`none` is the miss indicator (`query in self.cache` is false). -/
def cache_get (c : ResultCache) (q : String) : Option (List CombinedRecord) :=
  alist_lookup c q

/-- The literal `search_and_scrape` matches against scraped content
(search_and_scrape.py line 84). -/
def restricted_marker : String := "Access denied by robots.txt"

/-- The per-result assembly step of the combined pipeline
(search_and_scrape.py lines 81-108).  `scraped` is
`scraped_data.get(url, {})`: `none` when scraping this URL raised.
`is_restricted` is the substring test on `.get("content", "")` (line 84);
the skip branch (lines 87-91) yields `none`; otherwise `content` is
`.get("content", "No content scraped.")`, `word_count` is the whitespace
token count (0 for the missing-content sentinel and for restricted pages),
`source` is `urlparse(url).netloc` (modelled by `netloc`), and the links
are `list(set(...))` of `.get("links", [])`. -/
def combine_one (skip_restricted : Bool) (netloc : String → String)
    (scraped : Option ScrapeRecord) (r : SearchResult) :
    Option CombinedRecord :=
  let is_restricted :=
    str_contains (match scraped with
      | some rec => rec.content
      | none => "") restricted_marker
  if skip_restricted && is_restricted then none
  else
    let content :=
      match scraped with
      | some rec => rec.content
      | none => "No content scraped."
    let word_count :=
      if content = "No content scraped." then 0 else (py_words content).length
    some
      { title := r.title, snippet := r.snippet, link := r.link
        scraped_content := content
        word_count := if is_restricted then 0 else word_count
        source := netloc r.link
        scraped_links := (match scraped with
          | some rec => rec.links
          | none => []).dedup }

/-- The `scraped_data` dict built by the scraping loop
(search_and_scrape.py lines 71-79): one entry per search-result URL whose
scrape returned normally; a URL whose scrape raised (`Except.error`) is
absent.  `scraper` is a function of the URL, so repeated URLs always map to
the same record and the association list is read first-match. -/
def build_scraped_data (results : List SearchResult)
    (scraper : String → Except String ScrapeRecord) :
    List (String × ScrapeRecord) :=
  results.filterMap fun r =>
    match scraper r.link with
    | Except.ok rec => some (r.link, rec)
    | Except.error _ => none

/-- Model of `SearchAndScrape.search_and_scrape` (search_and_scrape.py lines
20-111).  The external search collaborator's answer for the query is the
parameter `search_results`; `scraper` is `self.web_scraper.scrape_page`
wrapped in the loop's try/except (`Except.error` = the scrape raised).
Returns the result list together with the cache after the call. -/
def search_and_scrape (cache : ResultCache) (query : String)
    (search_results : List SearchResult)
    (scraper : String → Except String ScrapeRecord)
    (skip_restricted : Bool) (netloc : String → String) :
    List CombinedRecord × ResultCache :=
  match cache_get cache query with
  | some cached => (cached, cache)
  | none =>
    if search_results = [] then ([], cache)
    else
      let scraped_data := build_scraped_data search_results scraper
      let combined := search_results.filterMap fun r =>
        combine_one skip_restricted netloc (alist_lookup scraped_data r.link) r
      (combined, cache_put cache query combined)

/-- URL resolution oracle used in concrete instances: an href that is
already absolute is returned unchanged, which is `urljoin`'s behavior on
absolute hrefs. -/
def resolve_keep (_base : String) (href : String) : String := href

/-- Parse oracle used in concrete instances: a document with no title, no
meta tags, no paragraphs and no anchors. -/
def parse_empty (_markup : String) : Soup :=
  { titleTag := none, metaDescription := none, metaKeywords := none
    paragraphs := [], anchorHrefs := [] }

/-- The links field of `extract_content` is the resolved anchor list
capped to 10 first and only then deduplicated (web_scraper.py lines
126-127 and 135). -/
theorem extract_content_links (sc : Bool) (resolve : String → String → String)
    (soup : Soup) (url : String) :
    (extract_content sc resolve soup url).links =
      ((soup.anchorHrefs.map fun href => resolve url href).take 10).dedup := rfl

/-- Claim C5: when robots.txt retrieval or parsing raises, `can_fetch`
returns true (fail open), and `scrape_page` on such a URL proceeds to
attempt a fetch (its action trace contains the fetch attempt) rather than
stopping at the robots check. -/
theorem C5_fail_open :
    (∀ e : String, can_fetch (Except.error e) = true) ∧
    (∀ (e : String) (sc : Bool) (resolve : String → String → String)
        (parse : String → Soup) (html : Option String) (url : String),
      (scrape_page sc resolve parse (Except.error e) html url).2 =
        [ScrapeAction.robotsCheck, ScrapeAction.fetchAttempt]) := by
  refine ⟨fun e => rfl, fun e sc resolve parse html url => ?_⟩
  cases html with
  | none => rfl
  | some h =>
    by_cases hh : h = "" <;> simp [scrape_page, can_fetch, hh]

/-- Claim C6 counterexample: with robots.txt allowing the URL and the
fetch succeeding with the empty document, `scrape_page` returns the
failed-fetch record, not the ContentExtractor's result for the fetched
markup, refuting the claim's third branch. -/
theorem C6_counterexample :
    (scrape_page true resolve_keep parse_empty (Except.ok true) (some "")
        "http://x").1 = failed_record "http://x" ∧
    failed_record "http://x" ≠
      extract_content true resolve_keep (parse_empty "") "http://x" := by
  constructor
  · rfl
  · decide

/-- Claim C6 (amended): `scrape_page` follows the state machine with one
adjustment forced by Python truthiness: the failed-fetch record is
returned both when the fetch returns null and when it returns the empty
document; a denied URL yields the access-denied record with no fetch
attempted, and a fetch that returns a nonempty document is passed to the
ContentExtractor whose result is returned as is. -/
theorem C6_scrape_state_machine (sc : Bool)
    (resolve : String → String → String) (parse : String → Soup)
    (robots : Except String Bool) (html : Option String) (url : String) :
    (can_fetch robots = false →
      scrape_page sc resolve parse robots html url =
        (denied_record, [ScrapeAction.robotsCheck])) ∧
    (can_fetch robots = true → (html = none ∨ html = some "") →
      scrape_page sc resolve parse robots html url =
        (failed_record url,
         [ScrapeAction.robotsCheck, ScrapeAction.fetchAttempt])) ∧
    (can_fetch robots = true → ∀ h, html = some h → h ≠ "" →
      scrape_page sc resolve parse robots html url =
        (extract_content sc resolve (parse h) url,
         [ScrapeAction.robotsCheck, ScrapeAction.fetchAttempt])) := by
  refine ⟨fun hcf => ?_, fun hcf hh => ?_, fun hcf h hh hne => ?_⟩
  · simp [scrape_page, hcf]
  · rcases hh with rfl | rfl <;> simp [scrape_page, hcf]
  · subst hh
    simp [scrape_page, hcf, hne]

/-- Claim C6 witness: the amended state machine evaluated on concrete
inputs, one per branch. -/
theorem C6_witness :
    scrape_page true resolve_keep parse_empty (Except.ok false) (some "x")
        "u" = (denied_record, [ScrapeAction.robotsCheck]) ∧
    scrape_page true resolve_keep parse_empty (Except.ok true) none "u" =
      (failed_record "u",
       [ScrapeAction.robotsCheck, ScrapeAction.fetchAttempt]) ∧
    scrape_page true resolve_keep parse_empty (Except.ok true) (some "<p>")
        "u" =
      (extract_content true resolve_keep (parse_empty "<p>") "u",
       [ScrapeAction.robotsCheck, ScrapeAction.fetchAttempt]) := by
  refine ⟨(C6_scrape_state_machine true resolve_keep parse_empty
      (Except.ok false) (some "x") "u").1 rfl,
    (C6_scrape_state_machine true resolve_keep parse_empty
      (Except.ok true) none "u").2.1 rfl (Or.inl rfl),
    (C6_scrape_state_machine true resolve_keep parse_empty
      (Except.ok true) (some "<p>") "u").2.2 rfl "<p>" rfl (by decide)⟩

/-- Claim C1 counterexample: a document with ten anchors resolving to one
URL followed by an anchor resolving to a second URL has only two distinct
resolved links (well under ten), yet the second URL is missing from the
returned links field, refuting "contains every resolved link whenever
there are at most 10 distinct ones" — the code caps before deduplicating. -/
theorem C1_counterexample :
    ((Soup.mk none none none []
        ["a", "a", "a", "a", "a", "a", "a", "a", "a", "a", "b"]).anchorHrefs.map
          fun href => resolve_keep "u" href).dedup.length ≤ 10 ∧
    ("b" ∈ (Soup.mk none none none []
        ["a", "a", "a", "a", "a", "a", "a", "a", "a", "a", "b"]).anchorHrefs.map
          fun href => resolve_keep "u" href) ∧
    "b" ∉ (extract_content true resolve_keep
        (Soup.mk none none none []
          ["a", "a", "a", "a", "a", "a", "a", "a", "a", "a", "b"]) "u").links := by
  decide

/-- Claim C1 (amended): `extract_content` resolves every anchor href
against the source URL, caps the resolved list to its first 10 entries,
and then deduplicates, so the links field always holds at most 10
pairwise-distinct URLs, its members are exactly the first 10 resolved
links, and it contains every resolved link whenever the document has at
most 10 anchors. -/
theorem C1_links_capped_then_deduped (sc : Bool)
    (resolve : String → String → String) (soup : Soup) (url : String) :
    (extract_content sc resolve soup url).links.Nodup ∧
    (extract_content sc resolve soup url).links.length ≤ 10 ∧
    (∀ x, x ∈ (extract_content sc resolve soup url).links ↔
      x ∈ (soup.anchorHrefs.map fun href => resolve url href).take 10) ∧
    (soup.anchorHrefs.length ≤ 10 →
      ∀ x, x ∈ (extract_content sc resolve soup url).links ↔
        x ∈ soup.anchorHrefs.map fun href => resolve url href) := by
  rw [extract_content_links]
  refine ⟨List.nodup_dedup _, ?_, fun x => List.mem_dedup, fun hlen x => ?_⟩
  · calc ((soup.anchorHrefs.map fun href => resolve url href).take 10).dedup.length
        ≤ ((soup.anchorHrefs.map fun href => resolve url href).take 10).length :=
          (List.dedup_sublist _).length_le
      _ ≤ 10 := by rw [List.length_take]; exact min_le_left _ _
  · rw [List.mem_dedup, List.take_of_length_le]
    rw [List.length_map]
    exact hlen

/-- Claim C1 witness: the amended statement evaluated on a document with
three anchors, one repeated. -/
theorem C1_witness :
    ("y" ∈ (extract_content true resolve_keep
      (Soup.mk none none none [] ["x", "x", "y"]) "u").links) ∧
    (extract_content true resolve_keep
      (Soup.mk none none none [] ["x", "x", "y"]) "u").links.Nodup := by
  have h := C1_links_capped_then_deduped true resolve_keep
    (Soup.mk none none none [] ["x", "x", "y"]) "u"
  exact ⟨(h.2.2.2 (by decide) "y").mpr (by decide), h.1⟩

/-- When every attempt in the window `[k, k + n)` fails, the retry loop
emits, for each attempt `a`, a rate-limit wait, an HTTP GET and a backoff
sleep of `2 ^ a` seconds, and yields no text. -/
theorem fetch_page_loop_all_fail (url : String)
    (responses : Nat → Option String) :
    ∀ n k, (∀ a, k ≤ a → a < k + n → responses a = none) →
      fetch_page_loop url responses n k =
        ((List.range' k n).flatMap fun a =>
          [FetchEvent.rateLimit url, FetchEvent.httpGet url,
           FetchEvent.backoffSleep (2 ^ a)], none)
  | 0, k, _ => rfl
  | n + 1, k, h => by
    have hk : responses k = none := h k le_rfl (by omega)
    have ih := fetch_page_loop_all_fail url responses n (k + 1)
      fun a ha1 ha2 => h a (by omega) (by omega)
    simp [fetch_page_loop, hk, ih, List.range'_succ]

/-- Each per-attempt block of the failing trace contributes exactly one
HTTP GET event. -/
theorem count_httpGet_blocks (url : String) (l : List Nat) :
    ((l.flatMap fun a =>
      [FetchEvent.rateLimit url, FetchEvent.httpGet url,
       FetchEvent.backoffSleep (2 ^ a)]).count (FetchEvent.httpGet url)) =
      l.length := by
  induction l with
  | nil => rfl
  | cons a l ih => simp [List.count_cons, ih]

/-- Claim C2: for a URL whose every HTTP attempt fails, `fetch_page` makes
exactly `max_retries` attempts (starting at attempt 0), applies the rate
limiter before every attempt including retries, sleeps `2 ^ attempt`
seconds after each failed attempt (1s, 2s, 4s, ...), and returns null.
The embedding is a total function: the loop catches every
`requests.RequestException`, so no fetch failure escapes this boundary. -/
theorem C2_fetch_retry_trace (url : String) (responses : Nat → Option String)
    (max_retries : Nat) (hfail : ∀ a, a < max_retries → responses a = none) :
    fetch_page url responses max_retries =
      ((List.range max_retries).flatMap fun a =>
        [FetchEvent.rateLimit url, FetchEvent.httpGet url,
         FetchEvent.backoffSleep (2 ^ a)], none) ∧
    (fetch_page url responses max_retries).1.count (FetchEvent.httpGet url) =
      max_retries := by
  have h : fetch_page url responses max_retries =
      ((List.range' 0 max_retries).flatMap fun a =>
        [FetchEvent.rateLimit url, FetchEvent.httpGet url,
         FetchEvent.backoffSleep (2 ^ a)], none) :=
    fetch_page_loop_all_fail url responses max_retries 0
      fun a ha1 ha2 => hfail a (by omega)
  rw [List.range_eq_range']
  refine ⟨h, ?_⟩
  rw [h]
  simp [count_httpGet_blocks]

/-- Claim C2 witness: three permanently failing attempts produce the
trace rate-limit, GET, sleep 1s, rate-limit, GET, sleep 2s, rate-limit,
GET, sleep 4s, and a null result. -/
theorem C2_witness :
    fetch_page "u" (fun _ => none) 3 =
      ([FetchEvent.rateLimit "u", FetchEvent.httpGet "u",
        FetchEvent.backoffSleep 1,
        FetchEvent.rateLimit "u", FetchEvent.httpGet "u",
        FetchEvent.backoffSleep 2,
        FetchEvent.rateLimit "u", FetchEvent.httpGet "u",
        FetchEvent.backoffSleep 4], none) := by
  have h := (C2_fetch_retry_trace "u" (fun _ => none) 3 fun a _ => rfl).1
  rw [h]
  decide

/-- The traces `fetch_page` can produce: a sequence of attempt blocks, in
each of which the rate-limit wait immediately precedes the HTTP GET. -/
inductive AttemptsRateLimited (url : String) : List FetchEvent → Prop
  | nil : AttemptsRateLimited url []
  | success :
      AttemptsRateLimited url [FetchEvent.rateLimit url, FetchEvent.httpGet url]
  | failure (s : Nat) (rest : List FetchEvent)
      (h : AttemptsRateLimited url rest) :
      AttemptsRateLimited url (FetchEvent.rateLimit url ::
        FetchEvent.httpGet url :: FetchEvent.backoffSleep s :: rest)

/-- Every trace of the retry loop keeps a rate-limit wait immediately
before each HTTP GET, whatever the attempt outcomes. -/
theorem fetch_page_loop_rate_limited (url : String)
    (responses : Nat → Option String) :
    ∀ n k, AttemptsRateLimited url (fetch_page_loop url responses n k).1
  | 0, _ => AttemptsRateLimited.nil
  | n + 1, k => by
    cases hk : responses k with
    | some t => simpa [fetch_page_loop, hk] using
        @AttemptsRateLimited.success url
    | none =>
      have hrec := fetch_page_loop_rate_limited url responses n (k + 1)
      simpa [fetch_page_loop, hk] using
        AttemptsRateLimited.failure (2 ^ k) _ hrec

/-- Claim C4: the rate limiter separates any two requests to the same
domain by at least `rate_limit` (when the domain has a recorded last
request at `last ≤ now`, the new dispatch time is at least
`last + rate_limit`), records the dispatch time for the domain, computes
its delay from that domain's entry alone (so requests to distinct domains
never delay each other), leaves other domains' timestamps untouched, and
is applied by `fetch_page` before every attempt, including retries. -/
theorem C4_rate_limiter :
    (∀ (rl : ℤ) (st : RateState) (d : String) (now last : ℤ),
      alist_lookup st d = some last → last ≤ now →
      last + rl ≤ (respect_rate_limit rl st d now).2) ∧
    (∀ (rl : ℤ) (st : RateState) (d : String) (now : ℤ),
      alist_lookup (respect_rate_limit rl st d now).1 d =
        some (respect_rate_limit rl st d now).2) ∧
    (∀ (rl : ℤ) (st st' : RateState) (d : String) (now : ℤ),
      alist_lookup st d = alist_lookup st' d →
      (respect_rate_limit rl st d now).2 =
        (respect_rate_limit rl st' d now).2) ∧
    (∀ (rl : ℤ) (st : RateState) (d d' : String) (now : ℤ), d' ≠ d →
      alist_lookup (respect_rate_limit rl st d now).1 d' =
        alist_lookup st d') ∧
    (∀ (url : String) (responses : Nat → Option String) (max_retries : Nat),
      AttemptsRateLimited url (fetch_page url responses max_retries).1) := by
  refine ⟨?_, ?_, ?_, ?_, ?_⟩
  · intro rl st d now last hl hle
    have hd : (respect_rate_limit rl st d now).2 =
        if now - last < rl then last + rl else now := by
      simp [respect_rate_limit, hl]
    rw [hd]
    split <;> omega
  · intro rl st d now
    simp [respect_rate_limit, alist_lookup]
  · intro rl st st' d now h
    simp only [respect_rate_limit, h]
  · intro rl st d d' now hne
    simp [respect_rate_limit, alist_lookup, Ne.symm hne]
  · intro url responses max_retries
    exact fetch_page_loop_rate_limited url responses max_retries 0

/-- Claim C4 witness: with a 2-tick limit and a request to domain "d"
recorded at tick 3, the next dispatch to "d" at tick 4 happens no earlier
than tick 5; the dispatch time for "a" ignores other domains' entries;
and the update leaves domain "e" untouched. -/
theorem C4_witness :
    ((3 : ℤ) + 2 ≤ (respect_rate_limit 2 [("d", 3)] "d" 4).2) ∧
    (respect_rate_limit 2 [("d", 3)] "a" 4).2 =
      (respect_rate_limit 2 [("b", 9), ("d", 3)] "a" 4).2 ∧
    alist_lookup (respect_rate_limit 2 [("d", 3)] "d" 4).1 "e" =
      alist_lookup [("d", (3 : ℤ))] "e" := by
  refine ⟨C4_rate_limiter.1 2 [("d", 3)] "d" 4 3 (by decide) (by decide),
    C4_rate_limiter.2.2.1 2 [("d", 3)] [("b", 9), ("d", 3)] "a" 4 (by decide),
    C4_rate_limiter.2.2.2.1 2 [("d", 3)] "d" "e" 4 (by decide)⟩

/-- A key that appears in no pair of an association list looks up to
`none`. -/
theorem alist_lookup_eq_none {α : Type} (l : List (String × α)) (k : String)
    (hk : k ∉ l.map Prod.fst) : alist_lookup l k = none := by
  induction l with
  | nil => rfl
  | cons e rest ih =>
    simp only [List.map_cons, List.mem_cons, not_or] at hk
    obtain ⟨k', v⟩ := e
    simp only [alist_lookup]
    rw [if_neg (Ne.symm hk.1)]
    exact ih hk.2

/-- Claim C8: putting a result list under a query and then getting that
query returns the stored list unchanged; a query that was never put
yields the miss indicator `none`, which is distinguishable from a cached
empty list. -/
theorem C8_cache_roundtrip (c : ResultCache) (q : String)
    (r : List CombinedRecord) :
    cache_get (cache_put c q r) q = some r ∧
    (q ∉ c.map Prod.fst → cache_get c q = none) ∧
    cache_get (cache_put c q []) q ≠ cache_get ([] : ResultCache) q := by
  refine ⟨?_, fun hq => alist_lookup_eq_none c q hq, ?_⟩
  · simp [cache_get, cache_put, alist_lookup]
  · simp [cache_get, cache_put, alist_lookup]

/-- Claim C8 witness: round trip through a one-entry cache, and a miss
for a query never put. -/
theorem C8_witness :
    cache_get (cache_put [("a", [])] "q"
      [CombinedRecord.mk "t" "s" "l" "c" 0 "d" []]) "q" =
      some [CombinedRecord.mk "t" "s" "l" "c" 0 "d" []] ∧
    cache_get [("a", ([] : List CombinedRecord))] "q" = none := by
  have h := C8_cache_roundtrip [("a", [])] "q"
    [CombinedRecord.mk "t" "s" "l" "c" 0 "d" []]
  exact ⟨h.1, h.2.1 (by decide)⟩

/-- Claim C3 counterexample: for a query not in the cache whose search
yields no results, the pipeline returns the empty list and the returned
cache still has no entry for the query, refuting "stores the result in
the cache under that exact query string before returning it" for every
uncached query. -/
theorem C3_counterexample :
    search_and_scrape [] "q" [] (fun _ => Except.error "e") true
      (fun _ => "") = ([], []) ∧
    cache_get (search_and_scrape [] "q" [] (fun _ => Except.error "e") true
      (fun _ => "")).2 "q" = none := by
  constructor <;> rfl

/-- Claim C3 (amended): on a cache hit the cached list is returned
verbatim with the cache unchanged, and the output does not depend on the
search results or the scraper (no search or scrape work is observable);
on a miss with a nonempty search-result list the pipeline stores its
output in the cache under the exact query before returning; on a miss
whose search yields no results the empty list is returned without being
cached. -/
theorem C3_cache_pipeline (cache : ResultCache) (query : String)
    (results : List SearchResult)
    (scraper : String → Except String ScrapeRecord) (skip : Bool)
    (netloc : String → String) :
    (∀ cached, cache_get cache query = some cached →
      search_and_scrape cache query results scraper skip netloc =
        (cached, cache)) ∧
    (∀ cached, cache_get cache query = some cached →
      ∀ (results' : List SearchResult)
        (scraper' : String → Except String ScrapeRecord),
        search_and_scrape cache query results' scraper' skip netloc =
          search_and_scrape cache query results scraper skip netloc) ∧
    (cache_get cache query = none → results ≠ [] →
      (search_and_scrape cache query results scraper skip netloc).2 =
        cache_put cache query
          (search_and_scrape cache query results scraper skip netloc).1 ∧
      cache_get
          (search_and_scrape cache query results scraper skip netloc).2
          query =
        some (search_and_scrape cache query results scraper skip netloc).1) ∧
    (cache_get cache query = none → results = [] →
      search_and_scrape cache query results scraper skip netloc =
        ([], cache)) := by
  refine ⟨?_, ?_, ?_, ?_⟩
  · intro cached hc
    simp [search_and_scrape, hc]
  · intro cached hc results' scraper'
    simp [search_and_scrape, hc]
  · intro hc hne
    simp only [search_and_scrape, hc]
    rw [if_neg hne]
    exact ⟨rfl, by simp [cache_get, cache_put, alist_lookup]⟩
  · intro hc he
    subst he
    simp [search_and_scrape, hc]

/-- Claim C3 witness: a hit on a cached empty list is returned verbatim,
and a miss with one search result is stored under the query. -/
theorem C3_witness :
    search_and_scrape [("q", [])] "q" [SearchResult.mk "t" "s" "u"]
      (fun _ => Except.error "x") true (fun _ => "h") = ([], [("q", [])]) ∧
    cache_get (search_and_scrape [] "p" [SearchResult.mk "t" "s" "u"]
        (fun _ => Except.error "x") true (fun _ => "h")).2 "p" =
      some (search_and_scrape [] "p" [SearchResult.mk "t" "s" "u"]
        (fun _ => Except.error "x") true (fun _ => "h")).1 := by
  have h1 := (C3_cache_pipeline [("q", [])] "q" [SearchResult.mk "t" "s" "u"]
    (fun _ => Except.error "x") true (fun _ => "h")).1 [] (by decide)
  have h2 := ((C3_cache_pipeline [] "p" [SearchResult.mk "t" "s" "u"]
    (fun _ => Except.error "x") true (fun _ => "h")).2.2.1 (by decide)
    (by decide)).2
  exact ⟨h1, h2⟩

/-- The content field of `extract_content`, written out: the joined
truncated paragraph text, summarized when enabled and over 100 words,
with the empty result replaced by "No main content found.". -/
theorem extract_content_content (sc : Bool)
    (resolve : String → String → String) (soup : Soup) (url : String) :
    (extract_content sc resolve soup url).content =
      (if (if sc && decide (100 < (py_words (joined_paragraphs soup)).length)
          then summarize_text (joined_paragraphs soup)
          else joined_paragraphs soup) = ""
       then "No main content found."
       else if sc && decide (100 < (py_words (joined_paragraphs soup)).length)
          then summarize_text (joined_paragraphs soup)
          else joined_paragraphs soup) := rfl

/-- A string built from a character list ending in "..." is nonempty. -/
theorem mk_append_dots_ne_empty (Y : List Char) :
    String.mk (Y ++ ['.', '.', '.']) ≠ "" := by
  intro h
  have h2 : Y ++ ['.', '.', '.'] = [] := congrArg String.data h
  simp at h2

/-- Claim C7: with summarization enabled, a joined-and-truncated
paragraph text of more than 100 whitespace-separated words is reduced to
its first 3 ". "-sentences joined with ". " plus a trailing "..." when it
has more than 3 such sentences, and passes through unchanged when it has
3 or fewer; a text of at most 100 words also passes through unchanged;
with summarization disabled the full truncated-to-2400-character text is
returned (for a nonempty text — an empty text yields the documented
"No main content found." default). -/
theorem C7_summarization (resolve : String → String → String) (soup : Soup)
    (url : String) :
    (100 < (py_words (joined_paragraphs soup)).length →
      3 < (split_dot_space (joined_paragraphs soup).data).length →
      (extract_content true resolve soup url).content =
        String.mk (List.intercalate ['.', ' ']
          ((split_dot_space (joined_paragraphs soup).data).take 3) ++
          ['.', '.', '.'])) ∧
    (100 < (py_words (joined_paragraphs soup)).length →
      (split_dot_space (joined_paragraphs soup).data).length ≤ 3 →
      (extract_content true resolve soup url).content =
        joined_paragraphs soup) ∧
    ((py_words (joined_paragraphs soup)).length ≤ 100 →
      joined_paragraphs soup ≠ "" →
      (extract_content true resolve soup url).content =
        joined_paragraphs soup) ∧
    (joined_paragraphs soup ≠ "" →
      (extract_content false resolve soup url).content =
        joined_paragraphs soup) := by
  have htne : 100 < (py_words (joined_paragraphs soup)).length →
      joined_paragraphs soup ≠ "" := by
    intro hw h
    rw [h] at hw
    have hnil : py_words "" = [] := rfl
    rw [hnil] at hw
    exact absurd hw (by decide)
  refine ⟨fun hw hs => ?_, fun hw hs => ?_, fun hw hne => ?_, fun hne => ?_⟩
  · have h1 : (true && decide (100 < (py_words (joined_paragraphs soup)).length))
        = true := by simpa using hw
    have hsum : summarize_text (joined_paragraphs soup) =
        String.mk (List.intercalate ['.', ' ']
          ((split_dot_space (joined_paragraphs soup).data).take 3) ++
          ['.', '.', '.']) := by
      simp [summarize_text, hs]
    rw [extract_content_content, h1, hsum]
    simp [mk_append_dots_ne_empty]
  · have h1 : (true && decide (100 < (py_words (joined_paragraphs soup)).length))
        = true := by simpa using hw
    have hsum : summarize_text (joined_paragraphs soup) =
        joined_paragraphs soup := by
      simp [summarize_text]
      omega
    rw [extract_content_content, h1, hsum]
    simp [htne hw]
  · have h1 : (true && decide (100 < (py_words (joined_paragraphs soup)).length))
        = false := by simpa using hw
    rw [extract_content_content, h1]
    simp [hne]
  · rw [extract_content_content]
    simp [hne]

/-- A 125-word, 5-sentence paragraph (25 words per sentence) used to
instantiate claim C7. -/
def long_paragraph : String :=
  String.mk (List.intercalate ['.', ' ']
    (List.replicate 5 (List.intercalate [' '] (List.replicate 25 ['w']))))

/-- A document holding just the long paragraph. -/
def soup_long : Soup := Soup.mk none none none [long_paragraph] []

set_option maxRecDepth 40000 in
/-- Claim C7 witness: on the 125-word, 5-sentence paragraph, summarization
enabled yields the first 3 sentences plus ellipsis; disabled yields the
full text. -/
theorem C7_witness :
    (100 < (py_words (joined_paragraphs soup_long)).length) ∧
    (extract_content true resolve_keep soup_long "u").content =
      String.mk (List.intercalate ['.', ' ']
        ((split_dot_space (joined_paragraphs soup_long).data).take 3) ++
        ['.', '.', '.']) ∧
    (extract_content false resolve_keep soup_long "u").content =
      joined_paragraphs soup_long := by
  refine ⟨by decide,
    (C7_summarization resolve_keep soup_long "u").1 (by decide) (by decide),
    (C7_summarization resolve_keep soup_long "u").2.2.2 (by decide)⟩

/-- On a cache miss with nonempty search results, the pipeline output is
the per-result assembly mapped over the search results. -/
theorem search_and_scrape_miss (cache : ResultCache) (query : String)
    (results : List SearchResult)
    (scraper : String → Except String ScrapeRecord) (skip : Bool)
    (netloc : String → String) (hc : cache_get cache query = none)
    (hne : results ≠ []) :
    (search_and_scrape cache query results scraper skip netloc).1 =
      results.filterMap fun r =>
        combine_one skip netloc
          (alist_lookup (build_scraped_data results scraper) r.link) r := by
  simp only [search_and_scrape, hc]
  rw [if_neg hne]

/-- A URL whose scrape raised never appears in the scraped-data map. -/
theorem build_scraped_data_lookup_none (results : List SearchResult)
    (scraper : String → Except String ScrapeRecord) (url : String)
    (e : String) (he : scraper url = Except.error e) :
    alist_lookup (build_scraped_data results scraper) url = none := by
  induction results with
  | nil => rfl
  | cons r0 rs ih =>
    simp only [build_scraped_data, List.filterMap_cons]
    cases hs : scraper r0.link with
    | error e' => exact ih
    | ok rec0 =>
      have hlink : ¬ (r0.link = url) := by
        intro hl
        rw [hl, he] at hs
        exact Except.noConfusion hs
      simp only [alist_lookup]
      rw [if_neg hlink]
      exact ih

/-- A URL that belongs to some search result and whose scrape returned a
record maps to exactly that record in the scraped-data map. -/
theorem build_scraped_data_lookup_ok
    (scraper : String → Except String ScrapeRecord) (url : String)
    (rec : ScrapeRecord) (hok : scraper url = Except.ok rec) :
    ∀ results : List SearchResult, (∃ r ∈ results, r.link = url) →
      alist_lookup (build_scraped_data results scraper) url = some rec
  | [], h => absurd h (by simp)
  | r0 :: rs, h => by
    obtain ⟨r, hr, hl⟩ := h
    simp only [build_scraped_data, List.filterMap_cons]
    cases hs : scraper r0.link with
    | ok rec0 =>
      by_cases h0 : r0.link = url
      · subst h0
        rw [hok] at hs
        obtain rfl : rec = rec0 := by injection hs
        simp [alist_lookup]
      · simp only [alist_lookup]
        rw [if_neg h0]
        apply build_scraped_data_lookup_ok scraper url rec hok rs
        rcases List.mem_cons.mp hr with rfl | hr2
        · exact absurd hl h0
        · exact ⟨r, hr2, hl⟩
    | error e' =>
      apply build_scraped_data_lookup_ok scraper url rec hok rs
      rcases List.mem_cons.mp hr with rfl | hr2
      · rw [hl, hok] at hs
        exact absurd hs (by simp)
      · exact ⟨r, hr2, hl⟩

/-- A URL whose scrape raised yields the sentinel combined record: content
"No content scraped.", word count 0, never skipped as restricted. -/
theorem combine_one_none (skip : Bool) (netloc : String → String)
    (r : SearchResult) :
    combine_one skip netloc none r = some
      (CombinedRecord.mk r.title r.snippet r.link "No content scraped." 0
        (netloc r.link) []) := by
  have h : str_contains "" restricted_marker = false := rfl
  simp [combine_one, h]

/-- A scraped record whose content contains the restriction marker is
dropped when skipping is on, and assigned word count 0 when it is off. -/
theorem combine_one_restricted (netloc : String → String)
    (rec : ScrapeRecord) (r : SearchResult)
    (h : str_contains rec.content restricted_marker = true) :
    combine_one true netloc (some rec) r = none ∧
    combine_one false netloc (some rec) r = some
      (CombinedRecord.mk r.title r.snippet r.link rec.content 0
        (netloc r.link) rec.links.dedup) := by
  constructor <;> simp [combine_one, h]

/-- Every record the per-result assembly emits carries its search
result's URL. -/
theorem combine_one_link (skip : Bool) (netloc : String → String)
    (scraped : Option ScrapeRecord) (r : SearchResult)
    (rec : CombinedRecord) (h : combine_one skip netloc scraped r = some rec) :
    rec.link = r.link := by
  simp only [combine_one] at h
  split at h
  · exact absurd h (by simp)
  · injection h with h2
    subst h2
    rfl

/-- Claim C9: an error raised while scraping one URL never aborts the
batch: on a cache miss the output is still the per-result assembly over
every search result, the failed URL contributes the sentinel record with
content "No content scraped." and word count 0, and every other result's
assembled record is still in the output. -/
theorem C9_batch_isolation (cache : ResultCache) (query : String)
    (results : List SearchResult)
    (scraper : String → Except String ScrapeRecord) (skip : Bool)
    (netloc : String → String) (r : SearchResult) (e : String)
    (hq : cache_get cache query = none) (hr : r ∈ results)
    (he : scraper r.link = Except.error e) :
    (search_and_scrape cache query results scraper skip netloc).1 =
      (results.filterMap fun r' =>
        combine_one skip netloc
          (alist_lookup (build_scraped_data results scraper) r'.link) r') ∧
    CombinedRecord.mk r.title r.snippet r.link "No content scraped." 0
        (netloc r.link) [] ∈
      (search_and_scrape cache query results scraper skip netloc).1 ∧
    (∀ r' ∈ results, ∀ rec,
      combine_one skip netloc
          (alist_lookup (build_scraped_data results scraper) r'.link) r' =
        some rec →
      rec ∈ (search_and_scrape cache query results scraper skip netloc).1) := by
  have hne := List.ne_nil_of_mem hr
  have hmain :=
    search_and_scrape_miss cache query results scraper skip netloc hq hne
  refine ⟨hmain, ?_, ?_⟩
  · rw [hmain]
    refine List.mem_filterMap.mpr ⟨r, hr, ?_⟩
    rw [build_scraped_data_lookup_none results scraper r.link e he]
    exact combine_one_none skip netloc r
  · intro r' hr' rec hrec
    rw [hmain]
    exact List.mem_filterMap.mpr ⟨r', hr', hrec⟩

/-- Claim C9 witness: in a two-URL batch whose first URL's scrape raises,
the output still holds the sentinel record for the first URL and the
assembled record for the second. -/
theorem C9_witness :
    CombinedRecord.mk "t1" "s1" "u1" "No content scraped." 0 "h" [] ∈
      (search_and_scrape [] "q"
        [SearchResult.mk "t1" "s1" "u1", SearchResult.mk "t2" "s2" "u2"]
        (fun url => if url = "u1" then Except.error "boom"
          else Except.ok (ScrapeRecord.mk "T" "D" "K" "hello world" []))
        true (fun _ => "h")).1 := by
  have h := C9_batch_isolation [] "q"
    [SearchResult.mk "t1" "s1" "u1", SearchResult.mk "t2" "s2" "u2"]
    (fun url => if url = "u1" then Except.error "boom"
      else Except.ok (ScrapeRecord.mk "T" "D" "K" "hello world" []))
    true (fun _ => "h") (SearchResult.mk "t1" "s1" "u1") "boom" rfl
    (by decide) rfl
  exact h.2.1

/-- Claim C10: the combined pipeline classifies a scraped record as
robots-restricted exactly when "Access denied by robots.txt" occurs as a
substring of its content; a successfully scraped record whose content
contains the phrase is omitted from the output when skipping restricted
pages is enabled, and kept with word count forced to 0 otherwise. -/
theorem C10_restricted_substring (cache : ResultCache) (query : String)
    (results : List SearchResult)
    (scraper : String → Except String ScrapeRecord)
    (netloc : String → String) (r : SearchResult) (rec : ScrapeRecord)
    (hq : cache_get cache query = none) (hr : r ∈ results)
    (hok : scraper r.link = Except.ok rec)
    (hsub : str_contains rec.content restricted_marker = true) :
    combine_one true netloc (some rec) r = none ∧
    combine_one false netloc (some rec) r = some
      (CombinedRecord.mk r.title r.snippet r.link rec.content 0
        (netloc r.link) rec.links.dedup) ∧
    (∀ c ∈ (search_and_scrape cache query results scraper true netloc).1,
      c.link ≠ r.link) ∧
    CombinedRecord.mk r.title r.snippet r.link rec.content 0 (netloc r.link)
        rec.links.dedup ∈
      (search_and_scrape cache query results scraper false netloc).1 := by
  have hne := List.ne_nil_of_mem hr
  have hlook :=
    build_scraped_data_lookup_ok scraper r.link rec hok results ⟨r, hr, rfl⟩
  have hcr := combine_one_restricted netloc rec r hsub
  refine ⟨hcr.1, hcr.2, ?_, ?_⟩
  · intro c hc hlink
    rw [search_and_scrape_miss cache query results scraper true netloc hq hne]
      at hc
    obtain ⟨r', hr', hc'⟩ := List.mem_filterMap.mp hc
    have hcl : c.link = r'.link := combine_one_link _ _ _ _ _ hc'
    have h2 : r'.link = r.link := by rw [← hcl, hlink]
    rw [h2, hlook] at hc'
    rw [(combine_one_restricted netloc rec r' hsub).1] at hc'
    exact Option.noConfusion hc'
  · rw [search_and_scrape_miss cache query results scraper false netloc hq hne]
    refine List.mem_filterMap.mpr ⟨r, hr, ?_⟩
    rw [hlook]
    exact hcr.2

/-- A scraped record whose body text merely quotes the restriction phrase
(its content is not equal to the phrase). -/
def quoting_rec : ScrapeRecord :=
  ScrapeRecord.mk "T" "D" "K"
    "the body quotes Access denied by robots.txt verbatim" ["l1"]

/-- Claim C10 witness: a page whose body merely contains the phrase is
omitted when skipping is enabled and kept with word count 0 otherwise,
although its content differs from the exact sentinel. -/
theorem C10_witness :
    (∀ c ∈ (search_and_scrape [] "q" [SearchResult.mk "t" "s" "u"]
        (fun _ => Except.ok quoting_rec) true (fun _ => "h")).1,
      c.link ≠ "u") ∧
    CombinedRecord.mk "t" "s" "u" quoting_rec.content 0 "h"
        quoting_rec.links.dedup ∈
      (search_and_scrape [] "q" [SearchResult.mk "t" "s" "u"]
        (fun _ => Except.ok quoting_rec) false (fun _ => "h")).1 ∧
    quoting_rec.content ≠ restricted_marker := by
  have h := C10_restricted_substring [] "q" [SearchResult.mk "t" "s" "u"]
    (fun _ => Except.ok quoting_rec) (fun _ => "h")
    (SearchResult.mk "t" "s" "u") quoting_rec rfl (by decide) rfl (by decide)
  exact ⟨h.2.2.1, h.2.2.2, by decide⟩

example : py_words "  a b  c " = ["a", "b", "c"] := by decide
example : str_contains "x Access denied by robots.txt y" restricted_marker = true := by decide
example : str_contains "No content scraped." restricted_marker = false := by decide
example : summarize_text "a. b. c. d. e" = "a. b. c..." := by decide
example :
    (extract_content true resolve_keep
      { titleTag := none, metaDescription := none, metaKeywords := none
        paragraphs := [], anchorHrefs := ["a", "a", "b"] } "u").links = ["a", "b"] := by
  decide
